import Mathlib

/-!
Shallow Lean embedding of the lifecycle orchestrator of the
simple-palworld-discord-bot repository, together with proofs of the
frozen claims about it.

Modelling conventions:
* JavaScript async functions become pure Lean functions over an explicit
  environment record that supplies the outcome of each external call
  (REST requests, process spawn, timers).  A JS function that can throw
  is embedded with result type `Except String _`; `.error m` models a
  thrown `Error(m)` propagating to the caller, `.ok v` a normal return.
* Side effects that the claims quantify over (remote calls, the launcher,
  the Discord status publication, the shutdown request) are recorded in
  an explicit effect trace returned alongside the result.
* The string-sanitization utility `sanitizeErrorMessage` is an external
  collaborator of the core (spec §1); it is carried in the environment as
  an abstract `String → String` and applied exactly where the source
  applies it.
-/

namespace Palworld

/-- Player entries returned by the `/players` endpoint; only their count and
identity matter to the orchestrator, so they are modelled as strings. -/
abbrev Player := String

/-! ## Operation Lock (index.js: `busy` / `withLock`) -/

/-- Embeds the acquisition step of `withLock`:
`if (busy) throw new Error('Another operation is in progress.'); busy = true;`.
`none` models the immediate busy throw, `some b` the busy flag that holds
while the action runs (always `true` after a successful acquisition). -/
def lockAcquire (busy : Bool) : Option Bool :=
  if busy then none else some true

/-- Embeds the `finally { busy = false }` clause: the busy flag after the
action finishes, on every exit path. -/
def lockRelease (_held : Bool) : Bool := false

/-- Embeds `withLock` from index.js.  Input: the busy flag at call time and
the action's outcome (`.ok` for a normal return, `.error` for a throw).
Output: the busy flag after the call returns and the call's own outcome.
If the lock is held the call fails immediately with the busy error and the
flag is untouched; otherwise the action runs while the flag is `true` and
the `finally` clause clears the flag whichever way the action exits. -/
def withLock {α : Type} (busy : Bool) (action : Except String α) :
    Bool × Except String α :=
  match lockAcquire busy with
  | none => (busy, Except.error "Another operation is in progress.")
  | some held => (lockRelease held, action)

/-! ## Claim C1 -/

/-- C1: for every pair of overlapping `withLock` invocations at most one
executes its action while the other fails immediately with the busy error
(independently of what its action would have been — no queuing, no retry);
the lock is released on every exit path of the executed action (normal
return and throw alike), so a subsequent `withLock` call after completion
runs its action. -/
theorem withLock_mutual_exclusion {α : Type} (v : α) (e : String)
    (a₂ a₃ : Except String α) :
    lockAcquire false = some true ∧
    withLock true a₂ = (true, Except.error "Another operation is in progress.") ∧
    (withLock false (Except.ok v)).1 = false ∧
    (withLock false (Except.error e : Except String α)).1 = false ∧
    withLock ((withLock false (Except.ok v)).1) a₃ = (false, a₃) ∧
    withLock ((withLock false (Except.error e : Except String α)).1) a₃ = (false, a₃) := by
  refine ⟨rfl, rfl, rfl, rfl, rfl, rfl⟩

/-! ## Shutdown Protocol (index.js: `gracefulShutdown`) -/

/-- The value returned by `gracefulShutdown`:
`{success: boolean, message: string}`. -/
structure ShutdownOutcome where
  success : Bool
  message : String
deriving DecidableEq

/-- Steps of the shutdown protocol that are observable side effects; the
embedding records them in order so theorems can state that a step never
ran on a given path. -/
inductive Act where
  | pollLiveness
  | pollPlayers
  | saveWorld
  | settleSleep
  | requestShutdown
  | downPoll
  | notifyDown
deriving DecidableEq

/-- Environment of one `gracefulShutdown` run: the outcome each external
call would produce if reached.  `upInitially` is the value of the initial
`isUp()` probe (a Bool — `isUp` catches internally and never throws);
`playersPre`/`playersPost` are the two `getPlayers()` calls, `.error`
modelling a thrown request failure; `saveResult` is `saveWorld()`;
`shutdownReq` is `shutdown(...)`; `wentDown` is the result of
`waitForShutdown` (false = timed out); `sanitize` is the external
`sanitizeErrorMessage` collaborator. -/
structure ShutdownEnv where
  upInitially : Bool
  playersPre : Except String (List Player)
  saveResult : Except String Unit
  playersPost : Except String (List Player)
  shutdownReq : Except String Unit
  wentDown : Bool
  sanitize : String → String

/-- Embeds `gracefulShutdown` from index.js.  The `Except` on the result
models whether the call returns a value (`.ok outcome`) or throws to its
caller (`.error m`).  Note the source layout: the initial `isUp()` and the
first `getPlayers()` run BEFORE the `try` block, so an error thrown by the
first player poll propagates; everything from `saveWorld()` on runs inside
`try { ... } catch (e) { return { success: false, message: ... } }`. -/
def gracefulShutdown (env : ShutdownEnv) : Except String ShutdownOutcome × List Act :=
  if env.upInitially = false then
    (Except.ok ⟨false, "Server already appears **DOWN**."⟩, [Act.pollLiveness])
  else
    match env.playersPre with
    | Except.error e =>
        -- the first `getPlayers()` is outside the try block: the throw escapes
        (Except.error e, [Act.pollLiveness, Act.pollPlayers])
    | Except.ok players =>
        if players.length > 0 then
          (Except.ok ⟨false,
              "Cannot stop: **" ++ toString players.length ++ "** player(s) online."⟩,
           [Act.pollLiveness, Act.pollPlayers])
        else
          match env.saveResult with
          | Except.error e =>
              (Except.ok ⟨false, "Stop failed: `" ++ env.sanitize e ++ "`"⟩,
               [Act.pollLiveness, Act.pollPlayers, Act.saveWorld])
          | Except.ok _ =>
              match env.playersPost with
              | Except.error e =>
                  (Except.ok ⟨false, "Stop failed: `" ++ env.sanitize e ++ "`"⟩,
                   [Act.pollLiveness, Act.pollPlayers, Act.saveWorld,
                    Act.settleSleep, Act.pollPlayers])
              | Except.ok players2 =>
                  if players2.length > 0 then
                    (Except.ok ⟨false,
                        "Abort: **" ++ toString players2.length ++
                        "** player(s) just connected."⟩,
                     [Act.pollLiveness, Act.pollPlayers, Act.saveWorld,
                      Act.settleSleep, Act.pollPlayers])
                  else
                    match env.shutdownReq with
                    | Except.error e =>
                        (Except.ok ⟨false, "Stop failed: `" ++ env.sanitize e ++ "`"⟩,
                         [Act.pollLiveness, Act.pollPlayers, Act.saveWorld,
                          Act.settleSleep, Act.pollPlayers, Act.requestShutdown])
                    | Except.ok _ =>
                        if env.wentDown = false then
                          (Except.ok ⟨false,
                              "Server shutdown timed out - may still be running."⟩,
                           [Act.pollLiveness, Act.pollPlayers, Act.saveWorld,
                            Act.settleSleep, Act.pollPlayers, Act.requestShutdown,
                            Act.downPoll])
                        else
                          (Except.ok ⟨true, "Graceful server stop completed."⟩,
                           [Act.pollLiveness, Act.pollPlayers, Act.saveWorld,
                            Act.settleSleep, Act.pollPlayers, Act.requestShutdown,
                            Act.downPoll, Act.notifyDown])

/-! ## Claim C2 -/

/-- C2 counterexample: the claim "gracefulShutdown never throws to its
caller" is false on the code.  The first `getPlayers()` call (the pre-save
player poll) sits OUTSIDE the `try` block, so when the server is up and
that poll throws, the error propagates to the caller instead of being
returned as a ShutdownOutcome value.  Concrete run: server up, the
pre-save player poll throws "network failure" — the call's outcome is a
thrown error, not a `{success, message}` value. -/
theorem gracefulShutdown_throws_on_presave_poll_error :
    (gracefulShutdown ⟨true, Except.error "network failure", Except.ok (),
        Except.ok [], Except.ok (), true, fun s => s⟩).1 =
      Except.error "network failure" := rfl

/-- C2 (amended): gracefulShutdown never throws PROVIDED the pre-save
player poll does not throw (or the initial liveness poll reports the
server down, so that poll is never reached); the initial liveness poll
itself cannot throw (`isUp` catches internally).  Every unexpected error
from the world save onward (save, settle delay, post-delay player poll,
shutdown request, down-poll) is caught and returned as success=false with
a sanitized message, illustrated here for a failing world save. -/
theorem gracefulShutdown_total_after_presave (env : ShutdownEnv)
    (h : env.upInitially = false ∨ ∃ ps, env.playersPre = Except.ok ps) :
    (∃ o, (gracefulShutdown env).1 = Except.ok o) ∧
    (∀ e, env.upInitially = true → env.playersPre = Except.ok [] →
      env.saveResult = Except.error e →
      (gracefulShutdown env).1 =
        Except.ok ⟨false, "Stop failed: `" ++ env.sanitize e ++ "`"⟩) := by
  obtain ⟨up, pre, save, post, req, down, san⟩ := env
  constructor
  · cases up with
    | false => exact ⟨_, rfl⟩
    | true =>
      rcases h with h | ⟨ps, rfl⟩
      · exact absurd h (by simp)
      · simp only [gracefulShutdown]
        by_cases hps : ps.length > 0
        · simp [hps]
        · simp only [hps, if_false, Bool.false_eq_true, reduceIte]
          cases save with
          | error e => exact ⟨_, rfl⟩
          | ok u =>
            cases post with
            | error e => exact ⟨_, rfl⟩
            | ok ps2 =>
              by_cases hps2 : ps2.length > 0
              · simp [hps2]
              · simp only [hps2, if_false, Bool.false_eq_true, reduceIte]
                cases req with
                | error e => exact ⟨_, rfl⟩
                | ok u =>
                  cases down with
                  | false => exact ⟨_, rfl⟩
                  | true => exact ⟨_, rfl⟩
  · rintro e rfl rfl rfl
    simp [gracefulShutdown]

/-- C2 amended-claim witness: a concrete run discharging the hypotheses —
server up, pre-save poll returns no players, the world save throws
"disk full"; the error is caught and becomes a success=false outcome. -/
theorem gracefulShutdown_total_after_presave_witness :
    (gracefulShutdown ⟨true, Except.ok [], Except.error "disk full",
        Except.ok [], Except.ok (), true, fun s => s⟩).1 =
      Except.ok ⟨false, "Stop failed: `disk full`"⟩ :=
  (gracefulShutdown_total_after_presave _ (Or.inr ⟨[], rfl⟩)).2 "disk full" rfl rfl rfl

/-! ## Claim C3 -/

/-- C3: whenever the pre-save player check observes N > 0 players, the
outcome is success=false with a message containing N and neither the world
save nor the shutdown request runs; whenever the post-delay player check
observes N > 0 players, the outcome is success=false with a message
containing N and the shutdown request is never issued. -/
theorem gracefulShutdown_player_checks (env : ShutdownEnv) (ps : List Player) :
    (env.upInitially = true → env.playersPre = Except.ok ps → ps.length > 0 →
      gracefulShutdown env =
        (Except.ok ⟨false,
            "Cannot stop: **" ++ toString ps.length ++ "** player(s) online."⟩,
         [Act.pollLiveness, Act.pollPlayers]) ∧
      Act.saveWorld ∉ (gracefulShutdown env).2 ∧
      Act.requestShutdown ∉ (gracefulShutdown env).2) ∧
    (env.upInitially = true → env.playersPre = Except.ok [] →
      env.saveResult = Except.ok () → env.playersPost = Except.ok ps →
      ps.length > 0 →
      gracefulShutdown env =
        (Except.ok ⟨false,
            "Abort: **" ++ toString ps.length ++ "** player(s) just connected."⟩,
         [Act.pollLiveness, Act.pollPlayers, Act.saveWorld,
          Act.settleSleep, Act.pollPlayers]) ∧
      Act.requestShutdown ∉ (gracefulShutdown env).2) := by
  obtain ⟨up, pre, save, post, req, down, san⟩ := env
  constructor
  · rintro rfl rfl hlen
    refine ⟨?_, ?_, ?_⟩ <;> simp [gracefulShutdown, hlen]
  · rintro rfl rfl rfl rfl hlen
    refine ⟨?_, ?_⟩ <;> simp [gracefulShutdown, hlen]

/-- C3 witness: concrete runs with one player online — the pre-save check
rejects with "1" in the message and no save/shutdown ever runs; the
post-delay check aborts with "1" in the message and no shutdown request
is issued. -/
theorem gracefulShutdown_player_checks_witness :
    gracefulShutdown ⟨true, Except.ok ["alice"], Except.ok (), Except.ok [],
        Except.ok (), true, fun s => s⟩ =
      (Except.ok ⟨false, "Cannot stop: **1** player(s) online."⟩,
       [Act.pollLiveness, Act.pollPlayers]) ∧
    gracefulShutdown ⟨true, Except.ok [], Except.ok (), Except.ok ["alice"],
        Except.ok (), true, fun s => s⟩ =
      (Except.ok ⟨false, "Abort: **1** player(s) just connected."⟩,
       [Act.pollLiveness, Act.pollPlayers, Act.saveWorld,
        Act.settleSleep, Act.pollPlayers]) :=
  ⟨((gracefulShutdown_player_checks _ ["alice"]).1 rfl rfl (by decide)).1,
   ((gracefulShutdown_player_checks _ ["alice"]).2 rfl rfl rfl rfl (by decide)).1⟩

/-! ## Lifecycle State Tracker and Monitor Loop (monitor.js) -/

/-- The tri-state `SERVER_STATE` constants of monitor.js. -/
inductive ServerState where
  | UNKNOWN
  | KNOWN_UP
  | KNOWN_DOWN
deriving DecidableEq

/-- The monitor module's mutable state relevant to the claims:
`serverState` and `consecutiveEmptyChecks` (the idle counter). -/
structure MonitorState where
  serverState : ServerState
  consecutiveEmptyChecks : Nat
deriving DecidableEq

/-- Observable side effects of a monitor tick / notify call.
`updateStatus` is the Discord display-status publication performed by
`updateDiscordStatus` (best-effort: it catches all its own errors, so it
is modelled as a non-throwing effect); `shutdownAttempt` marks that the
graceful-shutdown function was actually invoked under the lock. -/
inductive MEff where
  | pollLiveness
  | pollPlayers
  | updateStatus
  | shutdownAttempt
deriving DecidableEq

/-- Embeds `handleServerUp` of monitor.js: on a real transition set the
state to KNOWN_UP, reset the idle counter and publish the status once;
no-op when already KNOWN_UP. -/
def handleServerUp (s : MonitorState) : MonitorState × List MEff :=
  if s.serverState ≠ ServerState.KNOWN_UP then
    (⟨ServerState.KNOWN_UP, 0⟩, [MEff.updateStatus])
  else (s, [])

/-- Embeds `handleServerDown` of monitor.js, symmetric to `handleServerUp`. -/
def handleServerDown (s : MonitorState) : MonitorState × List MEff :=
  if s.serverState ≠ ServerState.KNOWN_DOWN then
    (⟨ServerState.KNOWN_DOWN, 0⟩, [MEff.updateStatus])
  else (s, [])

/-- Embeds `setServerUp` of monitor.js: guard then delegate to
`handleServerUp`. -/
def setServerUp (s : MonitorState) : MonitorState × List MEff :=
  if s.serverState ≠ ServerState.KNOWN_UP then handleServerUp s else (s, [])

/-- Embeds `setServerDown` of monitor.js: guard then delegate to
`handleServerDown`. -/
def setServerDown (s : MonitorState) : MonitorState × List MEff :=
  if s.serverState ≠ ServerState.KNOWN_DOWN then handleServerDown s else (s, [])

/-- Environment of one monitor tick: `serverUp` is the `isUp()` result
(`isUp` never throws); `playersResult` is the `getPlayers()` call, with
`.error` a thrown request failure reaching the tick's outer catch;
`lockBusy` is the busy flag of the Operation Lock when the auto-stop
attempt calls `withLockFn`; `shutdownResult` is the outcome of
`gracefulShutdownFn` if it runs (`.error` = it threw); `threshold` is
`config.monitoring.emptyCheckThreshold`. -/
structure TickEnv where
  serverUp : Bool
  playersResult : Except String (List Player)
  lockBusy : Bool
  shutdownResult : Except String ShutdownOutcome
  threshold : Nat

/-- Embeds `performMonitorCheck` of monitor.js, composed with the real
`withLock` for the auto-stop attempt.  Returns the updated monitor state
and the tick's effect trace.  A tick that begins in KNOWN_DOWN returns
immediately with no effects; a failed player poll is caught by the tick's
outer catch and leaves the counter as it stood; at threshold the shutdown
runs under the lock — busy lock means the attempt is skipped (the busy
error is caught, no reset, no further increment), a non-success outcome
keeps the accumulated count, and a success resets it to zero. -/
def performMonitorCheck (env : TickEnv) (s : MonitorState) : MonitorState × List MEff :=
  if s.serverState = ServerState.KNOWN_DOWN then (s, [])
  else
    if env.serverUp = false then
      let sd := if s.serverState ≠ ServerState.KNOWN_DOWN then handleServerDown s else (s, [])
      (sd.1, MEff.pollLiveness :: sd.2)
    else
      let su := if s.serverState ≠ ServerState.KNOWN_UP then handleServerUp s else (s, [])
      match env.playersResult with
      | Except.error _ =>
          (su.1, MEff.pollLiveness :: su.2 ++ [MEff.pollPlayers])
      | Except.ok players =>
          if players.length = 0 then
            let c := su.1.consecutiveEmptyChecks + 1
            if env.threshold ≤ c then
              match (withLock env.lockBusy env.shutdownResult).2 with
              | Except.ok result =>
                  if result.success = true then
                    (⟨su.1.serverState, 0⟩,
                     MEff.pollLiveness :: su.2 ++ [MEff.pollPlayers, MEff.shutdownAttempt])
                  else
                    (⟨su.1.serverState, c⟩,
                     MEff.pollLiveness :: su.2 ++ [MEff.pollPlayers, MEff.shutdownAttempt])
              | Except.error _ =>
                  -- either the busy throw of `withLock` (action never ran) or a
                  -- throw out of the shutdown function; both land in the same
                  -- catch and leave the counter at the accumulated value
                  (⟨su.1.serverState, c⟩,
                   MEff.pollLiveness :: su.2 ++ [MEff.pollPlayers] ++
                     (if env.lockBusy then [] else [MEff.shutdownAttempt]))
            else
              (⟨su.1.serverState, c⟩, MEff.pollLiveness :: su.2 ++ [MEff.pollPlayers])
          else
            (⟨su.1.serverState, 0⟩, MEff.pollLiveness :: su.2 ++ [MEff.pollPlayers])

/-! ## Claim C4 -/

/-- C4: on a tick whose idle counter reaches the configured threshold and
that attempts the shutdown protocol under the Operation Lock — shutdown
success resets the idle counter to 0; a non-success outcome leaves the
accumulated count (one increment for this tick, no reset); a busy lock
skips the attempt (the shutdown function never runs) with the counter
likewise neither reset nor incremented further. -/
theorem performMonitorCheck_threshold_attempt (env : TickEnv) (s : MonitorState)
    (hst : s.serverState = ServerState.KNOWN_UP)
    (hup : env.serverUp = true)
    (hpl : env.playersResult = Except.ok [])
    (hth : env.threshold ≤ s.consecutiveEmptyChecks + 1) :
    (∀ r : ShutdownOutcome, env.lockBusy = false →
      env.shutdownResult = Except.ok r → r.success = true →
      (performMonitorCheck env s).1.consecutiveEmptyChecks = 0) ∧
    (∀ r : ShutdownOutcome, env.lockBusy = false →
      env.shutdownResult = Except.ok r → r.success = false →
      (performMonitorCheck env s).1.consecutiveEmptyChecks =
        s.consecutiveEmptyChecks + 1) ∧
    (env.lockBusy = true →
      (performMonitorCheck env s).1.consecutiveEmptyChecks =
        s.consecutiveEmptyChecks + 1 ∧
      MEff.shutdownAttempt ∉ (performMonitorCheck env s).2) := by
  obtain ⟨sup, pls, lkb, sdr, thr⟩ := env
  obtain ⟨st, cnt⟩ := s
  simp only at hst hup hpl hth
  subst hst hup hpl
  refine ⟨?_, ?_, ?_⟩
  · rintro r rfl rfl hr
    simp [performMonitorCheck, withLock, lockAcquire, lockRelease, hth, hr]
  · rintro r rfl rfl hr
    simp [performMonitorCheck, withLock, lockAcquire, lockRelease, hth, hr]
  · rintro rfl
    constructor
    · simp [performMonitorCheck, withLock, lockAcquire, hth]
    · simp [performMonitorCheck, withLock, lockAcquire, hth]

/-- C4 witness: threshold 2, counter already at 1, empty tick — a
successful shutdown outcome resets the counter to 0, and with the lock
busy the counter stays at the accumulated 2 and the shutdown function is
never invoked. -/
theorem performMonitorCheck_threshold_attempt_witness :
    (performMonitorCheck
        ⟨true, Except.ok [], false,
         Except.ok ⟨true, "Graceful server stop completed."⟩, 2⟩
        ⟨ServerState.KNOWN_UP, 1⟩).1.consecutiveEmptyChecks = 0 ∧
    (performMonitorCheck
        ⟨true, Except.ok [], true,
         Except.ok ⟨true, "Graceful server stop completed."⟩, 2⟩
        ⟨ServerState.KNOWN_UP, 1⟩).1.consecutiveEmptyChecks = 2 ∧
    MEff.shutdownAttempt ∉
      (performMonitorCheck
        ⟨true, Except.ok [], true,
         Except.ok ⟨true, "Graceful server stop completed."⟩, 2⟩
        ⟨ServerState.KNOWN_UP, 1⟩).2 :=
  ⟨(performMonitorCheck_threshold_attempt _ _ rfl rfl rfl (by decide)).1
      ⟨true, "Graceful server stop completed."⟩ rfl rfl rfl,
   ((performMonitorCheck_threshold_attempt _ _ rfl rfl rfl (by decide)).2.2 rfl).1,
   ((performMonitorCheck_threshold_attempt _ _ rfl rfl rfl (by decide)).2.2 rfl).2⟩

/-! ## Claim C7 -/

/-- C7: `setServerUp` while already KNOWN_UP (and `setServerDown` while
already KNOWN_DOWN) is a no-op — no status publication, no counter reset;
a real transition into KNOWN_UP or KNOWN_DOWN resets the idle counter to
zero and publishes the display status exactly once. -/
theorem notify_idempotent_transition_once (s : MonitorState) :
    (s.serverState = ServerState.KNOWN_UP → setServerUp s = (s, [])) ∧
    (s.serverState = ServerState.KNOWN_DOWN → setServerDown s = (s, [])) ∧
    (s.serverState ≠ ServerState.KNOWN_UP →
      setServerUp s = (⟨ServerState.KNOWN_UP, 0⟩, [MEff.updateStatus])) ∧
    (s.serverState ≠ ServerState.KNOWN_DOWN →
      setServerDown s = (⟨ServerState.KNOWN_DOWN, 0⟩, [MEff.updateStatus])) := by
  refine ⟨?_, ?_, ?_, ?_⟩ <;> intro h <;>
    simp [setServerUp, setServerDown, handleServerUp, handleServerDown, h]

/-- C7 witness: with the counter at 7 — `setServerUp` in state KNOWN_UP
changes nothing and publishes nothing; `setServerUp` in state KNOWN_DOWN
transitions, resets the counter to 0 and publishes exactly once; and
symmetrically for `setServerDown`. -/
theorem notify_idempotent_transition_once_witness :
    setServerUp ⟨ServerState.KNOWN_UP, 7⟩ = (⟨ServerState.KNOWN_UP, 7⟩, []) ∧
    setServerDown ⟨ServerState.KNOWN_DOWN, 7⟩ = (⟨ServerState.KNOWN_DOWN, 7⟩, []) ∧
    setServerUp ⟨ServerState.KNOWN_DOWN, 7⟩ =
      (⟨ServerState.KNOWN_UP, 0⟩, [MEff.updateStatus]) ∧
    setServerDown ⟨ServerState.KNOWN_UP, 7⟩ =
      (⟨ServerState.KNOWN_DOWN, 0⟩, [MEff.updateStatus]) :=
  ⟨(notify_idempotent_transition_once ⟨ServerState.KNOWN_UP, 7⟩).1 rfl,
   (notify_idempotent_transition_once ⟨ServerState.KNOWN_DOWN, 7⟩).2.1 rfl,
   (notify_idempotent_transition_once ⟨ServerState.KNOWN_DOWN, 7⟩).2.2.1 (by decide),
   (notify_idempotent_transition_once ⟨ServerState.KNOWN_UP, 7⟩).2.2.2 (by decide)⟩

/-! ## Claim C8 -/

/-- C8: a monitor tick that begins while the tracked state is KNOWN_DOWN
is skipped entirely — the state (idle counter included) is returned
untouched and the effect trace is empty, so no liveness or player poll is
made. -/
theorem performMonitorCheck_skips_when_down (env : TickEnv) (s : MonitorState)
    (h : s.serverState = ServerState.KNOWN_DOWN) :
    performMonitorCheck env s = (s, []) := by
  simp [performMonitorCheck, h]

/-- C8 witness: a concrete KNOWN_DOWN tick with counter 3 is returned
unchanged with an empty effect trace. -/
theorem performMonitorCheck_skips_when_down_witness :
    performMonitorCheck
        ⟨true, Except.ok ["alice"], false, Except.ok ⟨true, "done"⟩, 2⟩
        ⟨ServerState.KNOWN_DOWN, 3⟩ =
      (⟨ServerState.KNOWN_DOWN, 3⟩, []) :=
  performMonitorCheck_skips_when_down _ _ rfl

/-! ## Startup Protocol (process.js: `startServer`) -/

/-- The value returned by `startServer`: `{started: bool, reason?}`. -/
structure StartResult where
  started : Bool
  reason : Option String
deriving DecidableEq

/-- Observable side effects of a `startServer` run: the initial liveness
probe, the Process Launcher invocation (`runSecurePowerShell` or
`runSecureDetached`), and the post-launch polling loop (`waitFor`). -/
inductive SEff where
  | pollLiveness
  | launch
  | pollWait
deriving DecidableEq

/-- Environment of one `startServer` run: `alreadyUp` is the initial
`isUp()` value, `serviceName`/`startCommand` are
`config.server.serviceName`/`config.server.startCommand`, `launchResult`
folds validation plus process/service launch on the selected path
(`.error` = any of those threw), `cameUp` is the `waitFor` poll outcome,
and `sanitize` the external `sanitizeErrorMessage` collaborator applied
by the surrounding catch. -/
structure StartEnv where
  alreadyUp : Bool
  serviceName : Option String
  startCommand : Option String
  launchResult : Except String Unit
  cameUp : Bool
  sanitize : String → String

/-- Embeds the launch-path selection of `startServer`: a configured
service name wins, else a configured start command, else the
`'No SERVICE_NAME or START_CMD configured'` throw; the trace records
whether the Process Launcher was actually invoked. -/
def launchStep (env : StartEnv) : Except String Unit × List SEff :=
  match env.serviceName with
  | some _ => (env.launchResult, [SEff.launch])
  | none =>
      match env.startCommand with
      | some _ => (env.launchResult, [SEff.launch])
      | none => (Except.error "No SERVICE_NAME or START_CMD configured", [])

/-- Embeds `startServer` of process.js.  `.error m` on the result models
the sanitized error rethrown by the surrounding catch; per the source, a
timeout of the post-launch polling loop throws
`'Server did not come up in time'` rather than returning a value. -/
def startServer (env : StartEnv) : Except String StartResult × List SEff :=
  if env.alreadyUp = true then
    (Except.ok ⟨false, some "already_running"⟩, [SEff.pollLiveness])
  else
    match launchStep env with
    | (Except.error e, effs) =>
        (Except.error (env.sanitize e), SEff.pollLiveness :: effs)
    | (Except.ok _, effs) =>
        if env.cameUp = true then
          (Except.ok ⟨true, none⟩, SEff.pollLiveness :: effs ++ [SEff.pollWait])
        else
          (Except.error (env.sanitize "Server did not come up in time"),
           SEff.pollLiveness :: effs ++ [SEff.pollWait])

/-! ## Claim C5 -/

/-- C5: when the initial liveness poll reports the server already up,
`startServer` returns `{started: false, reason: "already_running"}` with
only that probe in its trace — in particular the Process Launcher is never
invoked. -/
theorem startServer_idempotent_when_up (env : StartEnv)
    (h : env.alreadyUp = true) :
    startServer env =
      (Except.ok ⟨false, some "already_running"⟩, [SEff.pollLiveness]) ∧
    SEff.launch ∉ (startServer env).2 := by
  constructor <;> simp [startServer, h]

/-- C5 witness: a concrete already-up run returns the already_running
value and its trace holds no launcher invocation. -/
theorem startServer_idempotent_when_up_witness :
    startServer ⟨true, some "PalServer", none, Except.ok (), true, fun s => s⟩ =
      (Except.ok ⟨false, some "already_running"⟩, [SEff.pollLiveness]) ∧
    SEff.launch ∉
      (startServer ⟨true, some "PalServer", none, Except.ok (), true,
        fun s => s⟩).2 :=
  startServer_idempotent_when_up _ rfl

/-! ## Claim C6 -/

/-- C6: when the server is not already up, the launch succeeds, and the
post-launch liveness polling loop does not succeed before the start
timeout, the call fails — it surfaces the fatal
`'Server did not come up in time'` failure (as sanitized by the catch)
and in particular never returns a `started = true` value. -/
theorem startServer_timeout_is_fatal (env : StartEnv)
    (h1 : env.alreadyUp = false)
    (h2 : env.serviceName.isSome = true ∨ env.startCommand.isSome = true)
    (h3 : env.launchResult = Except.ok ())
    (h4 : env.cameUp = false) :
    (startServer env).1 =
      Except.error (env.sanitize "Server did not come up in time") ∧
    ∀ r : StartResult, (startServer env).1 ≠ Except.ok r := by
  obtain ⟨aup, svc, cmd, lres, cup, san⟩ := env
  simp only at h1 h2 h3 h4
  subst h1 h3 h4
  have hmain : (startServer ⟨false, svc, cmd, Except.ok (), false, san⟩).1 =
      Except.error (san "Server did not come up in time") := by
    rcases h2 with h | h
    · obtain ⟨nm, rfl⟩ := Option.isSome_iff_exists.mp h
      simp [startServer, launchStep]
    · obtain ⟨c, rfl⟩ := Option.isSome_iff_exists.mp h
      cases svc with
      | none => simp [startServer, launchStep]
      | some nm => simp [startServer, launchStep]
  refine ⟨hmain, ?_⟩
  intro r hr
  rw [hmain] at hr
  exact absurd hr (by simp)

/-- C6 witness: a concrete run (service path, launch ok, polling times
out, identity sanitizer) fails with the `'Server did not come up in
time'` error and returns no started value. -/
theorem startServer_timeout_is_fatal_witness :
    (startServer ⟨false, some "PalServer", none, Except.ok (), false,
        fun s => s⟩).1 =
      Except.error "Server did not come up in time" ∧
    ∀ r : StartResult,
      (startServer ⟨false, some "PalServer", none, Except.ok (), false,
          fun s => s⟩).1 ≠ Except.ok r :=
  startServer_timeout_is_fatal _ rfl (Or.inl rfl) rfl rfl

/-! ## Remote Control Client (palworld.js) -/

/-- The shape of a successful `/info` response, as used by the bot. -/
structure PalInfo where
  servername : String
  version : String
deriving DecidableEq

/-- Embeds `isUp` of palworld.js: try the `/info` query, return `true` on
success and `false` on ANY failure — the catch swallows every thrown
error, so the probe itself is total and never throws. -/
def isUp (statusQuery : Except String PalInfo) : Bool :=
  match statusQuery with
  | Except.ok _ => true
  | Except.error _ => false

/-! ## Claim C9 -/

/-- C9: `isUp` is total at its interface — for every outcome of the
underlying status query, including thrown errors, it returns a Bool and
never propagates the error; it returns `true` exactly when the query
succeeds and `false` exactly when the query fails. -/
theorem isUp_total (q : Except String PalInfo) (i : PalInfo) (e : String) :
    isUp (Except.ok i) = true ∧
    isUp (Except.error e) = false ∧
    (isUp q = true ↔ ∃ j, q = Except.ok j) ∧
    (isUp q = false ↔ ∃ m, q = Except.error m) := by
  refine ⟨rfl, rfl, ?_, ?_⟩ <;> cases q <;> simp [isUp]

/-! ## Claim C10 -/

/-- The possible shapes of a successful `/players` response body:
a bare JSON array, or an object whose `players` field is either a
(possibly empty) array or absent/null. -/
inductive PlayersResponse where
  | arrayBody (xs : List Player)
  | objectBody (playersField : Option (List Player))
deriving DecidableEq

/-- Embeds the body-shape normalization of `getPlayers`:
`Array.isArray(data) ? data : (data.players || [])`. -/
def playersOf (data : PlayersResponse) : List Player :=
  match data with
  | PlayersResponse.arrayBody xs => xs
  | PlayersResponse.objectBody (some xs) => xs
  | PlayersResponse.objectBody none => []

/-- Embeds `getPlayers` of palworld.js: the `/players` request followed by
the shape normalization; a thrown request error propagates unchanged. -/
def getPlayers (resp : Except String PlayersResponse) : Except String (List Player) :=
  match resp with
  | Except.error e => Except.error e
  | Except.ok data => Except.ok (playersOf data)

/-- C10: for every successful `/players` response shape, `getPlayers`
returns a list — an array body as-is, an object body's `players` field
as-is, and the empty list when that field is absent — so every caller can
take its length without a shape check. -/
theorem getPlayers_always_list (xs : List Player) (d : PlayersResponse) :
    getPlayers (Except.ok (PlayersResponse.arrayBody xs)) = Except.ok xs ∧
    getPlayers (Except.ok (PlayersResponse.objectBody (some xs))) = Except.ok xs ∧
    getPlayers (Except.ok (PlayersResponse.objectBody none)) = Except.ok [] ∧
    ∃ ys : List Player, getPlayers (Except.ok d) = Except.ok ys := by
  refine ⟨rfl, rfl, rfl, ⟨playersOf d, rfl⟩⟩

end Palworld
